import Mathlib

/-!
Verification development for the TravelShare client
(`frontend/src/api.js`, `PostForm`, `TripPlanner`, `App.jsx`).

The source is a React/fetch web client.  We shallowly embed the pure
content of each function: string/URL building, request-body
construction, the client-side state transitions performed by the event
handlers, and the truthiness-driven rendering conditions.  Network I/O
is modelled by passing the (already parsed) outcome of the HTTP call as
an explicit argument; JavaScript `await f(); rest` with a possibly
throwing `f` is modelled by case analysis on the outcome, with `rest`
executed only on the non-throwing branch.
-/

namespace TravelShare

/-- JSON values as the client sees them after `res.json()`.
Numbers are restricted to integers: every numeric value appearing in
the claims is integral, and no arithmetic is performed on them. -/
inductive Json where
  | jnull : Json
  | jbool (b : Bool) : Json
  | jnum (n : Int) : Json
  | jstr (s : String) : Json
  | jarr (xs : List Json) : Json
  | jobj (fields : List (String × Json)) : Json

/-- Field lookup in a JSON object (first binding wins, as in JS). -/
def Json.lookup (j : Json) (key : String) : Option Json :=
  match j with
  | .jobj fields => go fields
  | _ => none
where
  go : List (String × Json) → Option Json
    | [] => none
    | (k, v) :: rest => if k = key then some v else go rest

/-- Returns `true` exactly for JSON numbers. -/
def Json.isNumber : Json → Bool
  | .jnum _ => true
  | _ => false

/-- An HTTP response as observed by the client after `fetch` resolves:
the `ok` flag (status in the 2xx range) and the parsed JSON body.
Failure of `res.json()` itself is modelled separately where a claim
needs it (see `TripOutcome`). -/
structure HttpResponse where
  ok : Bool
  body : Json

/-- Base URL of the backend: `import.meta.env.VITE_API_URL` defaults to
this value; we model the default deployment configuration. -/
def API_URL : String := "http://localhost:8000"

/-! ### `api.js`: `fetchPosts`, `createPost` -/

/-- A request as built by `fetchPosts`: path plus the
`url.searchParams` key/value pairs, in insertion order.
(`URLSearchParams.set` on a fresh URL appends; encoding of the values
is irrelevant to the claims, which quantify over inclusion/omission.) -/
structure PostsRequest where
  path : String
  params : List (String × String)
deriving DecidableEq, Repr

/-- The URL construction of `fetchPosts(keyword = '', sentiment = '')`:
`if (keyword) url.searchParams.set('keyword', keyword)` and likewise
for `sentiment`.  A JS string is truthy iff it is non-empty. -/
def fetchPostsRequest (keyword : String := "") (sentiment : String := "") :
    PostsRequest :=
  { path := "/posts/"
    params :=
      (if keyword ≠ "" then [("keyword", keyword)] else []) ++
      (if sentiment ≠ "" then [("sentiment", sentiment)] else []) }

/-- Response handling of `fetchPosts`:
`if (!res.ok) throw new Error('Failed to fetch posts'); return res.json()`. -/
def fetchPostsResult (res : HttpResponse) : Except String Json :=
  if res.ok then .ok res.body else .error "Failed to fetch posts"

/-- Response handling of `createPost`:
`if (!res.ok) throw new Error('Failed to create post'); return res.json()`. -/
def createPostResult (res : HttpResponse) : Except String Json :=
  if res.ok then .ok res.body else .error "Failed to create post"

/-- Response handling of the trip-planner request inside
`TripPlanner.submit`:
`if (!res.ok) throw new Error('Failed to get plan'); const data = await res.json()`. -/
def planTripResult (res : HttpResponse) : Except String Json :=
  if res.ok then .ok res.body else .error "Failed to get plan"

/-! ### `api.js`: `getImageUrl`, `getThumbnailUrl`

These call the WHATWG `URL` constructor:
`new URL('/images/' + imageId, API_URL).toString()`.
We embed the fragment of the URL Standard that is reachable here: an
absolute-path relative reference resolved against an origin-only
special (`http:`) base.  That is: split off fragment (`#`) and query
(`?`), treat `\` as `/` in the path, split the path into segments,
normalise single-dot and double-dot segments (including their `%2e`
spellings, case-insensitively), and percent-encode each part with its
percent-encode set (UTF-8 percent-encoding, uppercase hex digits). -/

def quoteChar : Char := Char.ofNat 0x22
def hashChar : Char := Char.ofNat 0x23
def pctChar : Char := Char.ofNat 0x25
def aposChar : Char := Char.ofNat 0x27
def qmarkChar : Char := Char.ofNat 0x3f
def bslashChar : Char := Char.ofNat 0x5c
def btickChar : Char := Char.ofNat 0x60
def lbraceChar : Char := Char.ofNat 0x7b
def rbraceChar : Char := Char.ofNat 0x7d

/-- Uppercase hexadecimal digit, for percent-encoding. -/
def hexDigitChar (n : Nat) : Char :=
  if n < 10 then Char.ofNat (0x30 + n) else Char.ofNat (0x41 + (n - 10))

/-- Percent-escape `%XX` for one byte. -/
def pctByte (b : Nat) : List Char :=
  [pctChar, hexDigitChar (b / 16 % 16), hexDigitChar (b % 16)]

/-- UTF-8 encoding of one code point. -/
def utf8Bytes (c : Char) : List Nat :=
  let n := c.toNat
  if n < 0x80 then [n]
  else if n < 0x800 then [0xc0 + n / 0x40, 0x80 + n % 0x40]
  else if n < 0x10000 then
    [0xe0 + n / 0x1000, 0x80 + n / 0x40 % 0x40, 0x80 + n % 0x40]
  else
    [0xf0 + n / 0x40000, 0x80 + n / 0x1000 % 0x40,
     0x80 + n / 0x40 % 0x40, 0x80 + n % 0x40]

/-- C0 controls and code points above `~`: percent-encoded everywhere. -/
def c0OrHigh (c : Char) : Bool := c.toNat ≤ 0x1f || 0x7f ≤ c.toNat

/-- The URL Standard's path percent-encode set. -/
def inPathEncodeSet (c : Char) : Bool :=
  c0OrHigh c || c = ' ' || c = quoteChar || c = hashChar || c = '<' || c = '>' ||
    c = qmarkChar || c = btickChar || c = lbraceChar || c = rbraceChar

/-- The query percent-encode set for special (http) URLs. -/
def inQueryEncodeSet (c : Char) : Bool :=
  c0OrHigh c || c = ' ' || c = quoteChar || c = hashChar || c = '<' || c = '>' ||
    c = aposChar

/-- The fragment percent-encode set. -/
def inFragmentEncodeSet (c : Char) : Bool :=
  c0OrHigh c || c = ' ' || c = quoteChar || c = '<' || c = '>' || c = btickChar

/-- UTF-8 percent-encode one character against a percent-encode set. -/
def pctEncodeChar (inSet : Char → Bool) (c : Char) : List Char :=
  if inSet c then ((utf8Bytes c).map pctByte).flatten else [c]

/-- Percent-encode a character sequence against a percent-encode set. -/
def pctEncodeList (inSet : Char → Bool) (cs : List Char) : List Char :=
  (cs.map (pctEncodeChar inSet)).flatten

/-- Split at the first occurrence of `delim`; the second component is
`none` when `delim` does not occur. -/
def splitAtFirst (delim : Char) : List Char → List Char × Option (List Char)
  | [] => ([], none)
  | c :: cs =>
    if c = delim then ([], some cs)
    else
      let r := splitAtFirst delim cs
      (c :: r.1, r.2)

/-- Split a slash-free-prefix path into `/`-separated raw segments. -/
def splitSegments : List Char → List (List Char)
  | [] => [[]]
  | c :: cs =>
    if c = '/' then [] :: splitSegments cs
    else
      match splitSegments cs with
      | s :: rest => (c :: s) :: rest
      | [] => [[c]]

def toLowerList (cs : List Char) : List Char := cs.map Char.toLower

/-- A single-dot path segment (`.` or a percent-encoded spelling). -/
def isSingleDotSeg (cs : List Char) : Bool :=
  cs == ['.'] || toLowerList cs == [pctChar, '2', 'e']

/-- A double-dot path segment (`..` or a percent-encoded spelling). -/
def isDoubleDotSeg (cs : List Char) : Bool :=
  let l := toLowerList cs
  cs == ['.', '.'] || l == ['.', pctChar, '2', 'e'] ||
    l == [pctChar, '2', 'e', '.'] || l == [pctChar, '2', 'e', pctChar, '2', 'e']

/-- The URL Standard's path state, over the list of raw segments:
percent-encode each segment; a double-dot segment shortens the path, a
single-dot segment is dropped; either dot segment in final position
leaves a trailing empty segment. -/
def processSegments (acc : List String) : List (List Char) → List String
  | [] => acc
  | seg :: rest =>
    let buffer := pctEncodeList inPathEncodeSet seg
    if isDoubleDotSeg buffer then
      match rest with
      | [] => acc.dropLast ++ [""]
      | _ => processSegments acc.dropLast rest
    else if isSingleDotSeg buffer then
      match rest with
      | [] => acc ++ [""]
      | _ => processSegments acc rest
    else processSegments (acc ++ [⟨buffer⟩]) rest

/-- Result of resolving an absolute-path reference against the
origin-only base: path segments, optional query, optional fragment. -/
structure ParsedUrl where
  pathSegments : List String
  query : Option String
  fragment : Option String

/-- Resolve a relative reference beginning with `/` against the base
`API_URL`: fragment starts at the first `#`, query at the first `?`
before that; in the path, `\` counts as `/` (special scheme) and dot
segments are normalised. -/
def parseUrlInput (input : String) : ParsedUrl :=
  let (beforeFrag, frag) := splitAtFirst hashChar input.data
  let (pathPart, query) := splitAtFirst qmarkChar beforeFrag
  let pathChars := pathPart.map fun c => if c = bslashChar then '/' else c
  let segs :=
    match pathChars with
    | '/' :: rest => splitSegments rest
    | l => splitSegments l
  { pathSegments := processSegments [] segs
    query := query.map fun q => ⟨pctEncodeList inQueryEncodeSet q⟩
    fragment := frag.map fun f => ⟨pctEncodeList inFragmentEncodeSet f⟩ }

/-- Serialization `URL.prototype.toString`: base origin, path, query and
fragment. -/
def serializeUrl (u : ParsedUrl) : String :=
  API_URL ++ String.join (u.pathSegments.map fun s => "/" ++ s) ++
    (match u.query with | none => "" | some q => "?" ++ q) ++
    (match u.fragment with | none => "" | some f => "#" ++ f)

/-- Embeds `getImageUrl(imageId)`:
`new URL(`/images/${imageId}`, API_URL).toString()`. -/
def getImageUrl (imageId : String) : String :=
  serializeUrl (parseUrlInput ("/images/" ++ imageId))

/-- Embeds `getThumbnailUrl(imageId)`:
`new URL(`/images/${imageId}/thumbnail`, API_URL).toString()`. -/
def getThumbnailUrl (imageId : String) : String :=
  serializeUrl (parseUrlInput ("/images/" ++ imageId ++ "/thumbnail"))

/-! ### `TripPlanner.jsx` -/

/-- The whitespace characters stripped by `String.prototype.trim`,
scoped to ASCII (space, tab, LF, VT, FF, CR). -/
def jsWhitespace (c : Char) : Bool :=
  c = ' ' || c = Char.ofNat 0x09 || c = Char.ofNat 0x0a || c = Char.ofNat 0x0b ||
    c = Char.ofNat 0x0c || c = Char.ofNat 0x0d

/-- Embeds `String.prototype.trim`: strip leading and trailing whitespace. -/
def jsTrim (s : String) : String :=
  ⟨((s.data.dropWhile jsWhitespace).reverse.dropWhile jsWhitespace).reverse⟩

/-- A JavaScript number as produced by `Number(string)`.  The claims
only distinguish "a number" from "not a number", on integral inputs, so
non-integral numeric literals are out of scope. -/
inductive JsNumber where
  | nan : JsNumber
  | int (n : Int) : JsNumber
deriving DecidableEq, Repr

/-- Decimal digits to a natural number; `none` on a non-digit or an
empty sequence. -/
def parseDecimal : List Char → Option Nat
  | [] => none
  | cs => go cs 0
where
  go : List Char → Nat → Option Nat
    | [], acc => some acc
    | c :: rest, acc =>
      if c.isDigit then go rest (acc * 10 + (c.toNat - 0x30)) else none

/-- Embeds `Number(s)` on the inputs the claims exercise: whitespace is
trimmed, the empty string converts to `0`, an optionally signed run of
decimal digits converts to that integer, anything else to `NaN`
(non-integral and non-decimal numeric literal forms are out of scope). -/
def jsNumber (s : String) : JsNumber :=
  match (jsTrim s).data with
  | [] => .int 0
  | '-' :: cs =>
    match parseDecimal cs with
    | some n => .int (-(n : Int))
    | none => .nan
  | '+' :: cs =>
    match parseDecimal cs with
    | some n => .int (n : Int)
    | none => .nan
  | cs =>
    match parseDecimal cs with
    | some n => .int (n : Int)
    | none => .nan

/-- Embeds `JSON.stringify` of a number field: `NaN` serializes as `null`. -/
def jsNumberToJson : JsNumber → Json
  | .nan => .jnull
  | .int n => .jnum n

/-- The `TripPlanner` component state: the five controlled inputs (all
strings), the plan (a JS string, or `undefined` modelled as `none`
after `setPlan(data.plan)` with an absent field), the loading flag and
the error message. -/
structure TripState where
  city : String
  concept : String
  budget : String
  days : String
  people : String
  plan : Option String
  loading : Bool
  error : String
deriving DecidableEq, Repr

/-- The body of the outgoing `POST /plan-trip/` request:
`JSON.stringify({ city, concept, budget, days: Number(days), people: Number(people) })`. -/
def tripRequestBody (st : TripState) : Json :=
  .jobj
    [("city", .jstr st.city),
     ("concept", .jstr st.concept),
     ("budget", .jstr st.budget),
     ("days", jsNumberToJson (jsNumber st.days)),
     ("people", jsNumberToJson (jsNumber st.people))]

/-- How the trip-planner request resolves, as observed by `submit`:
the fetch itself rejects, the status is non-success, `res.json()`
rejects, or a parsed body whose `plan` field is the given string
(`none` when the field is absent; non-string `plan` values are out of
scope of the claims). -/
inductive TripOutcome where
  | netError : TripOutcome
  | httpError : TripOutcome
  | jsonError : TripOutcome
  | okPlan (plan : Option String) : TripOutcome
deriving DecidableEq, Repr

/-- Returns `true` on the outcomes that reach the `catch` block of
`TripPlanner.submit`. -/
def TripOutcome.failed : TripOutcome → Bool
  | .okPlan _ => false
  | _ => true

/-- The synchronous prefix of `TripPlanner.submit`:
`setLoading(true); setPlan(''); setError('')`. -/
def tripSubmitStart (st : TripState) : TripState :=
  { st with loading := true, plan := some "", error := "" }

/-- The remainder of `TripPlanner.submit`: on a success outcome
`setPlan(data.plan)`, on any failure `setError('Failed to get plan')`;
`finally { setLoading(false) }`. -/
def tripSubmitFinish (st : TripState) (outcome : TripOutcome) : TripState :=
  match outcome with
  | .okPlan p => { st with plan := p, loading := false }
  | _ => { st with error := "Failed to get plan", loading := false }

/-- One complete run of `TripPlanner.submit` for a given request
outcome. -/
def tripSubmit (st : TripState) (outcome : TripOutcome) : TripState :=
  tripSubmitFinish (tripSubmitStart st) outcome

/-- JS truthiness of a string-or-undefined value: `undefined` and the
empty string are falsy. -/
def jsTruthy : Option String → Bool
  | none => false
  | some s => s != ""

/-- Embeds `{error && <p className="error">{error}</p>}`. -/
def tripErrorShown (st : TripState) : Bool := st.error != ""

/-- Embeds `{plan && <pre className="trip-plan">{plan}</pre>}`. -/
def tripPlanShown (st : TripState) : Bool := jsTruthy st.plan

/-! ### `PostForm.jsx` -/

/-- The `PostForm` component state.  The `File` object held in `image`
is opaque to the client; we track it as an identifier. -/
structure PostFormState where
  username : String
  body : String
  image : Option String
deriving DecidableEq, Repr

/-- The argument passed to the caller-supplied `onCreate` handler. -/
structure CreatePayload where
  username : String
  body : String
  image : Option String
deriving DecidableEq, Repr

/-- How the awaited caller-supplied handler finishes: the promise
resolves, or it rejects (throws). -/
inductive HandlerOutcome where
  | resolves : HandlerOutcome
  | throws : HandlerOutcome
deriving DecidableEq, Repr

/-- The guard of `PostForm.submit`:
`if (!username.trim() || !body.trim()) return`. -/
def postFormBlocked (st : PostFormState) : Bool :=
  jsTrim st.username == "" || jsTrim st.body == ""

/-- The payload handed to `onCreate`:
`{ username: username.trim(), body: body.trim(), image }`. -/
def postFormPayload (st : PostFormState) : CreatePayload :=
  { username := jsTrim st.username, body := jsTrim st.body, image := st.image }

/-- Embeds `PostForm.submit`: blocked submissions invoke nothing and change
nothing; otherwise `onCreate` is awaited, and `setBody('');
setImage(null)` run only if it resolved (a rejection propagates out of
`submit` before they run).  Returns the payload passed to the handler
(`none` when the handler was not invoked) and the new form state. -/
def postFormSubmit (st : PostFormState) (handler : HandlerOutcome) :
    Option CreatePayload × PostFormState :=
  if postFormBlocked st then (none, st)
  else
    match handler with
    | .throws => (some (postFormPayload st), st)
    | .resolves => (some (postFormPayload st), { st with body := "", image := none })

/-! ### `App.jsx` -/

/-- A post as rendered by the feed (spec §3). -/
structure Post where
  id : Nat
  username : String
  body : String
  image_id : Option String
  created_at : String
deriving DecidableEq, Repr

/-- The `App` component state. -/
structure AppState where
  posts : List Post
  loading : Bool
  error : String
  search : String
  selectedImage : Option String
deriving DecidableEq, Repr

/-- The parsed body of a successful `fetchPosts`, as consumed by
`App.load`: `data.posts || []` — `none` models a body whose `posts`
field is absent (or otherwise falsy). -/
structure LoadData where
  posts : Option (List Post)
deriving DecidableEq, Repr

/-- How the `fetchPosts` call inside `App.load` resolves. -/
inductive LoadOutcome where
  | success (data : LoadData) : LoadOutcome
  | failure : LoadOutcome
deriving DecidableEq, Repr

/-- Embeds `App.load(kw)`: `setLoading(true); setError('')`, then on success
`setPosts(data.posts || [])`, on failure `setError('Failed to load
posts')`; `finally { setLoading(false) }`.  Also returns the list of
feed requests issued (`fetchPosts(kw)`, whose `sentiment` argument
defaults to the empty string). -/
def appLoad (st : AppState) (kw : String) (outcome : LoadOutcome) :
    AppState × List PostsRequest :=
  let st1 := { st with loading := true, error := "" }
  match outcome with
  | .success data =>
    ({ st1 with posts := data.posts.getD [], loading := false },
     [fetchPostsRequest kw ""])
  | .failure =>
    ({ st1 with error := "Failed to load posts", loading := false },
     [fetchPostsRequest kw ""])

/-- How the `createPost` call inside `App.onCreate` resolves. -/
inductive CreateOutcome where
  | success : CreateOutcome
  | failure : CreateOutcome
deriving DecidableEq, Repr

/-- Embeds `App.onCreate(payload)`: `await createPost(payload); await
load(search)`, with the whole body in a try/catch whose catch sets
`error`.  (`load` has its own try/catch, so only the `createPost`
rejection reaches this catch.)  Returns the new state and the feed
(`fetchPosts`) requests issued. -/
def appOnCreate (st : AppState) (created : CreateOutcome)
    (loadOutcome : LoadOutcome) : AppState × List PostsRequest :=
  match created with
  | .failure => ({ st with error := "Failed to create post" }, [])
  | .success => appLoad st st.search loadOutcome

/-- The body of `App.onCreate` is one try/catch whose catch block does
not rethrow, so, as the promise awaited by `PostForm.submit`, it
resolves on every outcome. -/
def appOnCreateOutcome (_created : CreateOutcome) (_loadOutcome : LoadOutcome) :
    HandlerOutcome :=
  .resolves

/-- The post form as wired in `App`: `PostForm.submit` with
`onCreate = App.onCreate`.  Returns the new form state, the new app
state, and the feed requests issued. -/
def appSubmit (form : PostFormState) (app : AppState)
    (created : CreateOutcome) (loadOutcome : LoadOutcome) :
    PostFormState × AppState × List PostsRequest :=
  match postFormSubmit form (appOnCreateOutcome created loadOutcome) with
  | (none, form2) => (form2, app, [])
  | (some _, form2) =>
    let r := appOnCreate app created loadOutcome
    (form2, r.1, r.2)

/-! ### `App.jsx`: the image modal and click dispatch -/

/-- The handler-bearing elements of the `App` render tree a click can
land on.  `thumbnail imgId` is the feed thumbnail of a post whose
`image_id` is (the truthy) `imgId` — the `<img>` is rendered only under
`{p.image_id && ...}`. -/
inductive ClickTarget where
  | thumbnail (imgId : String) : ClickTarget
  | modalBackdrop : ClickTarget
  | modalContent : ClickTarget
  | closeButton : ClickTarget
deriving DecidableEq, Repr

/-- What an `onClick` handler in the `App` render tree does. -/
inductive HandlerAction where
  | setSelected (v : Option String) : HandlerAction
  | stopPropagation : HandlerAction
deriving DecidableEq, Repr

/-- The `onClick` handler of each handler-bearing element:
thumbnail → `setSelectedImage(p.image_id)`,
backdrop → `setSelectedImage(null)`,
modal content → `e.stopPropagation()`,
close button → `setSelectedImage(null)`. -/
def clickHandler : ClickTarget → HandlerAction
  | .thumbnail imgId => .setSelected (some imgId)
  | .modalBackdrop => .setSelected none
  | .modalContent => .stopPropagation
  | .closeButton => .setSelected none

/-- The bubbling path of a click: the element, then its handler-bearing
ancestors, innermost first.  The thumbnails live in the feed list,
outside the modal, and none of their ancestors carries a click
handler. -/
def bubblePath : ClickTarget → List ClickTarget
  | .thumbnail imgId => [.thumbnail imgId]
  | .modalBackdrop => [.modalBackdrop]
  | .modalContent => [.modalContent, .modalBackdrop]
  | .closeButton => [.closeButton, .modalContent, .modalBackdrop]

/-- Run the handlers along a bubbling path.  `stopPropagation`
executes and prevents every handler further out.  Returns the final
state and the actions actually executed, in order. -/
def runHandlers (st : AppState) : List ClickTarget → AppState × List HandlerAction
  | [] => (st, [])
  | t :: rest =>
    match clickHandler t with
    | .stopPropagation => (st, [.stopPropagation])
    | .setSelected v =>
      let r := runHandlers { st with selectedImage := v } rest
      (r.1, .setSelected v :: r.2)

/-- Dispatch a click on a target through DOM bubbling. -/
def dispatchClick (st : AppState) (t : ClickTarget) : AppState × List HandlerAction :=
  runHandlers st (bubblePath t)

/-- The `src` of the modal image when the overlay is rendered:
`{selectedImage && <div className="modal">…<img src={getImageUrl(selectedImage)}/>…</div>}`;
`none` when no overlay is shown. -/
def modalImageSrc (st : AppState) : Option String :=
  match st.selectedImage with
  | some imgId => if imgId != "" then some (getImageUrl imgId) else none
  | none => none

/-- The characters the path component passes through verbatim:
printable ASCII outside the path percent-encode set that is not a
segment (`/`, `\`), query (`?`) or fragment (`#`) delimiter. -/
def urlSafeSegChar (c : Char) : Bool :=
  !(inPathEncodeSet c) && c != '/' && c != bslashChar

/-! ## Theorems -/

/-- C1: every endpoint wrapper (`fetchPosts`, `createPost`, the
trip-planner request) throws a generic error when the HTTP response has
a non-success status, and returns the parsed JSON body when the status
is success. -/
theorem endpoint_wrappers_reject_on_non_success (res : HttpResponse) :
    (res.ok = false →
      (∃ e, fetchPostsResult res = .error e) ∧
      (∃ e, createPostResult res = .error e) ∧
      (∃ e, planTripResult res = .error e)) ∧
    (res.ok = true →
      fetchPostsResult res = .ok res.body ∧
      createPostResult res = .ok res.body ∧
      planTripResult res = .ok res.body) := by
  obtain ⟨ok, body⟩ := res
  cases ok <;>
    simp [fetchPostsResult, createPostResult, planTripResult]

/-- Witness for C1 at concrete responses: a 4xx/5xx response yields an
error from each wrapper; a 2xx response yields its body. -/
theorem endpoint_wrappers_reject_on_non_success_witness :
    (∃ e, fetchPostsResult ⟨false, .jnull⟩ = .error e) ∧
    (∃ e, createPostResult ⟨false, .jnull⟩ = .error e) ∧
    (∃ e, planTripResult ⟨false, .jnull⟩ = .error e) ∧
    planTripResult ⟨true, .jnum 3⟩ = .ok (.jnum 3) :=
  ⟨((endpoint_wrappers_reject_on_non_success ⟨false, .jnull⟩).1 rfl).1,
   ((endpoint_wrappers_reject_on_non_success ⟨false, .jnull⟩).1 rfl).2.1,
   ((endpoint_wrappers_reject_on_non_success ⟨false, .jnull⟩).1 rfl).2.2,
   ((endpoint_wrappers_reject_on_non_success ⟨true, .jnum 3⟩).2 rfl).2.2⟩

/-- C7: `fetchPosts` omits an empty keyword or sentiment filter from
the query parameters entirely, and includes a non-empty filter as the
corresponding parameter. -/
theorem fetchPosts_omits_absent_filters (keyword sentiment : String) :
    (fetchPostsRequest keyword sentiment).path = "/posts/" ∧
    ((fetchPostsRequest keyword sentiment).params.lookup "keyword" =
      if keyword = "" then none else some keyword) ∧
    ((fetchPostsRequest keyword sentiment).params.lookup "sentiment" =
      if sentiment = "" then none else some sentiment) := by
  refine ⟨rfl, ?_, ?_⟩ <;>
    rcases eq_or_ne keyword "" with hk | hk <;>
    rcases eq_or_ne sentiment "" with hs | hs <;>
    simp [fetchPostsRequest, hk, hs, List.lookup]

/-- C3 counterexample: the claim says every numeric field of the
outgoing trip request, `budget` included, is parsed to a number; but on
the submission (city "Paris", concept "art", budget "100", days "3",
people "2") the body carries `budget` as the JSON string "100", not a
number.  (`days` does carry numeric 3.) -/
theorem trip_budget_sent_as_string_counterexample :
    (tripRequestBody ⟨"Paris", "art", "100", "3", "2", some "", false, ""⟩).lookup
        "budget" = some (.jstr "100") ∧
    ((tripRequestBody ⟨"Paris", "art", "100", "3", "2", some "", false, ""⟩).lookup
        "budget").map Json.isNumber = some false ∧
    (tripRequestBody ⟨"Paris", "art", "100", "3", "2", some "", false, ""⟩).lookup
        "days" = some (.jnum 3) :=
  ⟨rfl, rfl, rfl⟩

/-- C3 amended: in the outgoing trip request body, `days` and `people`
are parsed with `Number` before sending (in particular `days = "3"`
carries numeric 3), while `city`, `concept` — and also `budget`, though
it is a numeric input — are sent as the entered strings. -/
theorem trip_request_body_fields (st : TripState) :
    (tripRequestBody st).lookup "city" = some (.jstr st.city) ∧
    (tripRequestBody st).lookup "concept" = some (.jstr st.concept) ∧
    (tripRequestBody st).lookup "budget" = some (.jstr st.budget) ∧
    (tripRequestBody st).lookup "days" =
      some (jsNumberToJson (jsNumber st.days)) ∧
    (tripRequestBody st).lookup "people" =
      some (jsNumberToJson (jsNumber st.people)) ∧
    (tripRequestBody { st with days := "3" }).lookup "days" =
      some (.jnum 3) :=
  ⟨rfl, rfl, rfl, rfl, rfl, rfl⟩

/-- C4: submitting the post form never invokes the caller-supplied
handler when the trimmed username or trimmed body is empty (the state
is returned unchanged), and always invokes it with the trimmed payload
when both are non-blank. -/
theorem post_form_blank_blocks_submission (st : PostFormState)
    (handler : HandlerOutcome) :
    ((jsTrim st.username = "" ∨ jsTrim st.body = "") →
      postFormSubmit st handler = (none, st)) ∧
    (jsTrim st.username ≠ "" → jsTrim st.body ≠ "" →
      (postFormSubmit st handler).1 = some (postFormPayload st)) := by
  constructor
  · intro h
    have hb : postFormBlocked st = true := by
      rcases h with h | h <;> simp [postFormBlocked, h]
    simp [postFormSubmit, hb]
  · intro h1 h2
    have hb : postFormBlocked st = false := by
      simp [postFormBlocked, h1, h2]
    cases handler <;> simp [postFormSubmit, hb]

/-- Witness for C4: a whitespace-only body blocks the handler; a filled
form invokes it. -/
theorem post_form_blank_blocks_submission_witness :
    postFormSubmit ⟨"alice", "   ", some "pic"⟩ .resolves =
      (none, ⟨"alice", "   ", some "pic"⟩) ∧
    (postFormSubmit ⟨"alice", "hi", none⟩ .resolves).1 =
      some (postFormPayload ⟨"alice", "hi", none⟩) :=
  ⟨(post_form_blank_blocks_submission ⟨"alice", "   ", some "pic"⟩ .resolves).1
      (Or.inr (by decide)),
   (post_form_blank_blocks_submission ⟨"alice", "hi", none⟩ .resolves).2
      (by decide) (by decide)⟩

/-- C6: after a successful post creation the feed is re-requested
exactly once, with the keyword filter that was active at submission
time (the app's sentiment filter is identically absent, and the refetch
carries no sentiment parameter); after a failed creation no refetch
occurs, only the error message is set. -/
theorem feed_refetch_after_create (st : AppState) (lo : LoadOutcome) :
    (appOnCreate st .success lo).2 = [fetchPostsRequest st.search ""] ∧
    (appOnCreate st .failure lo).2 = [] ∧
    (appOnCreate st .failure lo).1 =
      { st with error := "Failed to create post" } ∧
    (fetchPostsRequest st.search "").params.lookup "sentiment" = none := by
  refine ⟨?_, rfl, rfl, ?_⟩
  · cases lo <;> rfl
  · rcases eq_or_ne st.search "" with h | h <;>
      simp [fetchPostsRequest, h, List.lookup]

/-- C8 counterexample: the claim says exactly one of plan/error is
shown after any request resolves; but when the request succeeds with an
empty plan string, neither is shown. -/
theorem trip_empty_plan_neither_shown_counterexample :
    TripOutcome.failed (.okPlan (some "")) = false ∧
    tripPlanShown
      (tripSubmit ⟨"Paris", "art", "100", "3", "2", some "old", false, "oops"⟩
        (.okPlan (some ""))) = false ∧
    tripErrorShown
      (tripSubmit ⟨"Paris", "art", "100", "3", "2", some "old", false, "oops"⟩
        (.okPlan (some ""))) = false := by
  decide

/-- C8 amended: at submit start the previous plan and error are both
cleared; after a request resolves, plan and error are never both shown:
the error is shown iff the request failed, and the plan is shown iff
the request succeeded with a truthy (non-empty, present) plan — when a
successful response carries an empty or missing plan, neither is
shown. -/
theorem trip_display_invariants (st : TripState) (outcome : TripOutcome) :
    (tripSubmitStart st).plan = some "" ∧
    (tripSubmitStart st).error = "" ∧
    tripPlanShown (tripSubmitStart st) = false ∧
    tripErrorShown (tripSubmitStart st) = false ∧
    (tripPlanShown (tripSubmit st outcome) &&
      tripErrorShown (tripSubmit st outcome)) = false ∧
    tripErrorShown (tripSubmit st outcome) = outcome.failed ∧
    tripPlanShown (tripSubmit st outcome) =
      (match outcome with
       | .okPlan p => jsTruthy p
       | _ => false) := by
  cases outcome <;>
    simp [tripSubmit, tripSubmitStart, tripSubmitFinish, tripPlanShown,
      tripErrorShown, jsTruthy, TripOutcome.failed]

/-- C10: when a feed load fails, the posts list is exactly what it was
before the load began — the whole state change is setting the error
message and clearing the loading flag; when a load succeeds with a body
lacking a `posts` field, the feed is set to the empty list. -/
theorem load_failure_preserves_posts (st : AppState) (kw : String)
    (d : LoadData) :
    (appLoad st kw .failure).1 =
      { st with error := "Failed to load posts", loading := false } ∧
    (appLoad st kw .failure).1.posts = st.posts ∧
    (d.posts = none → (appLoad st kw (.success d)).1.posts = []) ∧
    (appLoad st kw (.success d)).1.posts = d.posts.getD [] := by
  refine ⟨rfl, rfl, ?_, rfl⟩
  intro h
  simp [appLoad, h]

/-- Witness for C10: a failed load keeps the one-post feed, and a
successful load whose body lacks `posts` empties it. -/
theorem load_failure_preserves_posts_witness :
    (appLoad ⟨[⟨1, "alice", "hi", none, "t"⟩], false, "", "x", none⟩ "x"
        .failure).1.posts = [⟨1, "alice", "hi", none, "t"⟩] ∧
    (appLoad ⟨[⟨1, "alice", "hi", none, "t"⟩], false, "", "x", none⟩ "x"
        (.success ⟨none⟩)).1.posts = [] :=
  ⟨(load_failure_preserves_posts ⟨[⟨1, "alice", "hi", none, "t"⟩], false, "",
      "x", none⟩ "x" ⟨none⟩).2.1,
   (load_failure_preserves_posts ⟨[⟨1, "alice", "hi", none, "t"⟩], false, "",
      "x", none⟩ "x" ⟨none⟩).2.2.1 rfl⟩

/-- C5 counterexample: the claim says body and image are not cleared
when the creation fails; but `App.onCreate` catches the failure and
resolves normally, so with the valid form (username "alice", body "hi",
image "pic") and a failing `createPost`, `PostForm.submit` still clears
body and image. -/
theorem post_form_cleared_despite_failed_create_counterexample :
    (appSubmit ⟨"alice", "hi", some "pic"⟩ ⟨[], false, "", "", none⟩ .failure
        (.success ⟨none⟩)).1 = ⟨"alice", "", none⟩ ∧
    ("hi" : String) ≠ "" ∧ (some "pic" : Option String) ≠ none := by
  decide

/-- C5 amended: `PostForm` clears body and image exactly when the
awaited handler resolves — a throwing handler would leave every field
unchanged — and retains the username in every case; but `App.onCreate`
catches a failed creation and resolves regardless, so in the app the
body and image are cleared after every non-blocked submission, even one
whose creation failed. -/
theorem post_form_clear_semantics (form : PostFormState) (app : AppState)
    (created : CreateOutcome) (lo : LoadOutcome)
    (hvalid : postFormBlocked form = false) :
    (postFormSubmit form .resolves).2.body = "" ∧
    (postFormSubmit form .resolves).2.image = none ∧
    (postFormSubmit form .throws).2 = form ∧
    (∀ h, (postFormSubmit form h).2.username = form.username) ∧
    appOnCreateOutcome created lo = .resolves ∧
    (appSubmit form app created lo).1.body = "" ∧
    (appSubmit form app created lo).1.image = none := by
  refine ⟨?_, ?_, ?_, ?_, rfl, ?_, ?_⟩
  · simp [postFormSubmit, hvalid]
  · simp [postFormSubmit, hvalid]
  · simp [postFormSubmit, hvalid]
  · intro h
    cases h <;> simp [postFormSubmit, hvalid]
  · simp [appSubmit, appOnCreateOutcome, postFormSubmit, hvalid]
  · simp [appSubmit, appOnCreateOutcome, postFormSubmit, hvalid]

/-- Witness for C5 at a concrete valid form and a failing creation:
the handler still resolves and the body is cleared. -/
theorem post_form_clear_semantics_witness :
    postFormBlocked ⟨"bob", "hello", some "img"⟩ = false ∧
    (appSubmit ⟨"bob", "hello", some "img"⟩ ⟨[], false, "", "", none⟩ .failure
        (.success ⟨none⟩)).1.body = "" :=
  ⟨by decide,
   (post_form_clear_semantics ⟨"bob", "hello", some "img"⟩
      ⟨[], false, "", "", none⟩ .failure (.success ⟨none⟩)
      (by decide)).2.2.2.2.2.1⟩

/-- C9: clicking a post's thumbnail selects that post's image id and
(for a truthy id) the overlay shows the full-size URL derived from it;
clicking the backdrop or the close button removes the overlay; a click
inside the modal content stops at the `stopPropagation` handler and
changes nothing; and closing via the close button executes only the
close action and the propagation stop — no handler that opens an image
runs. -/
theorem image_modal_open_close (st : AppState) (imgId : String) :
    (dispatchClick st (.thumbnail imgId)).1 =
      { st with selectedImage := some imgId } ∧
    (imgId ≠ "" →
      modalImageSrc (dispatchClick st (.thumbnail imgId)).1 =
        some (getImageUrl imgId)) ∧
    (dispatchClick st .modalBackdrop).1 =
      { st with selectedImage := none } ∧
    modalImageSrc (dispatchClick st .modalBackdrop).1 = none ∧
    (dispatchClick st .closeButton).1 = { st with selectedImage := none } ∧
    modalImageSrc (dispatchClick st .closeButton).1 = none ∧
    (dispatchClick st .modalContent).1 = st ∧
    (dispatchClick st .modalContent).2 = [.stopPropagation] ∧
    (dispatchClick st .closeButton).2 =
      [.setSelected none, .stopPropagation] ∧
    (∀ a ∈ (dispatchClick st .closeButton).2, ∀ s, a ≠ .setSelected (some s)) := by
  refine ⟨rfl, ?_, rfl, rfl, rfl, rfl, rfl, rfl, rfl, ?_⟩
  · intro h
    simp [modalImageSrc, dispatchClick, runHandlers, bubblePath, clickHandler, h]
  · intro a ha s
    have : a = .setSelected none ∨ a = .stopPropagation := by
      simpa [dispatchClick, runHandlers, bubblePath, clickHandler] using ha
    rcases this with rfl | rfl <;> simp

/-- Witness for C9: with an empty initial state, clicking the thumbnail
for image id "img7" opens the overlay on that image's full-size URL. -/
theorem image_modal_open_close_witness :
    ("img7" : String) ≠ "" ∧
    modalImageSrc (dispatchClick ⟨[], false, "", "", none⟩
        (.thumbnail "img7")).1 = some (getImageUrl "img7") :=
  ⟨by decide,
   (image_modal_open_close ⟨[], false, "", "", none⟩ "img7").2.1 (by decide)⟩

/-! ### Lemmas about the URL model -/

theorem data_append (s t : String) : (s ++ t).data = s.data ++ t.data := rfl

theorem splitAtFirst_none (delim : Char) (cs : List Char)
    (h : ∀ c ∈ cs, c ≠ delim) : splitAtFirst delim cs = (cs, none) := by
  induction cs with
  | nil => rfl
  | cons c rest ih =>
    have hc : ¬ c = delim := h c (by simp)
    simp only [splitAtFirst, if_neg hc, ih fun x hx => h x (by simp [hx])]

theorem map_backslash_id (cs : List Char) (h : ∀ c ∈ cs, c ≠ bslashChar) :
    (cs.map fun c => if c = bslashChar then '/' else c) = cs := by
  induction cs with
  | nil => rfl
  | cons c rest ih =>
    simp only [List.map_cons, if_neg (h c (by simp)),
      ih fun x hx => h x (by simp [hx])]

theorem splitSegments_no_slash (cs : List Char) (h : ∀ c ∈ cs, c ≠ '/') :
    splitSegments cs = [cs] := by
  induction cs with
  | nil => rfl
  | cons c rest ih =>
    simp only [splitSegments, if_neg (h c (by simp)),
      ih fun x hx => h x (by simp [hx])]

theorem splitSegments_append (l₁ l₂ : List Char) (h : ∀ c ∈ l₁, c ≠ '/') :
    splitSegments (l₁ ++ '/' :: l₂) = l₁ :: splitSegments l₂ := by
  induction l₁ with
  | nil => simp [splitSegments]
  | cons c rest ih =>
    simp only [List.cons_append, splitSegments, List.append_eq,
      if_neg (h c (by simp)), ih fun x hx => h x (by simp [hx])]

theorem pctEncodeChar_safe (inSet : Char → Bool) (c : Char)
    (h : inSet c = false) : pctEncodeChar inSet c = [c] := by
  simp [pctEncodeChar, h]

theorem pctEncodeList_id (inSet : Char → Bool) (cs : List Char)
    (h : ∀ c ∈ cs, inSet c = false) : pctEncodeList inSet cs = cs := by
  induction cs with
  | nil => rfl
  | cons c rest ih =>
    have : pctEncodeList inSet (c :: rest) =
        pctEncodeChar inSet c ++ pctEncodeList inSet rest := by
      simp [pctEncodeList]
    rw [this, pctEncodeChar_safe inSet c (h c (by simp)),
      ih fun x hx => h x (by simp [hx])]
    rfl

theorem processSegments_cons_safe (acc : List String) (seg : List Char)
    (rest : List (List Char)) (hsafe : ∀ c ∈ seg, inPathEncodeSet c = false)
    (hd1 : isSingleDotSeg seg = false) (hd2 : isDoubleDotSeg seg = false) :
    processSegments acc (seg :: rest) = processSegments (acc ++ [⟨seg⟩]) rest := by
  simp only [processSegments, pctEncodeList_id inPathEncodeSet seg hsafe,
    hd1, hd2, Bool.false_eq_true, if_false]

theorem urlSafeSegChar_spec (c : Char) (h : urlSafeSegChar c = true) :
    inPathEncodeSet c = false ∧ c ≠ '/' ∧ c ≠ bslashChar ∧
      c ≠ hashChar ∧ c ≠ qmarkChar := by
  simp only [urlSafeSegChar, Bool.and_eq_true, bne_iff_ne, ne_eq,
    Bool.not_eq_true'] at h
  obtain ⟨⟨h1, h2⟩, h3⟩ := h
  refine ⟨h1, h2, h3, ?_, ?_⟩
  · rintro rfl
    exact absurd h1 (by decide)
  · rintro rfl
    exact absurd h1 (by decide)

/-- C2 counterexample: the `URL` constructor percent-encodes URL-unsafe
characters, so for the id `"a b"` `getImageUrl` does not return the
base URL joined with `/images/a b`; it returns `/images/a%20b`. -/
theorem image_url_not_literal_join_counterexample :
    getImageUrl "a b" ≠ API_URL ++ "/images/" ++ "a b" ∧
    getImageUrl "a b" = "http://localhost:8000/images/a%20b" ∧
    getThumbnailUrl "a b" ≠ API_URL ++ "/images/" ++ "a b" ++ "/thumbnail" ∧
    getThumbnailUrl "a b" = "http://localhost:8000/images/a%20b/thumbnail" := by
  refine ⟨?_, ?_, ?_, ?_⟩ <;> decide

/-- C2 amended, part of the proof: parsing `/images/` ++ id for a safe,
non-dot id yields exactly the two path segments and no query or
fragment. -/
theorem parseUrlInput_image (id : String)
    (hchars : ∀ c ∈ id.data, urlSafeSegChar c = true)
    (hdot1 : isSingleDotSeg id.data = false)
    (hdot2 : isDoubleDotSeg id.data = false) :
    parseUrlInput ("/images/" ++ id) =
      { pathSegments := ["images", id], query := none, fragment := none } := by
  have hspec := fun c hc => urlSafeSegChar_spec c (hchars c hc)
  have hmem : ∀ c ∈ ('/' :: 'i' :: 'm' :: 'a' :: 'g' :: 'e' :: 's' :: '/' ::
      id.data), c ≠ hashChar ∧ c ≠ qmarkChar ∧ c ≠ bslashChar := by
    intro c hc
    simp only [List.mem_cons] at hc
    rcases hc with rfl | rfl | rfl | rfl | rfl | rfl | rfl | rfl | h
    any_goals decide
    obtain ⟨_, _, h3, h4, h5⟩ := hspec c h
    exact ⟨h4, h5, h3⟩
  have e1 : splitAtFirst hashChar ('/' :: 'i' :: 'm' :: 'a' :: 'g' :: 'e' ::
      's' :: '/' :: id.data) =
      ('/' :: 'i' :: 'm' :: 'a' :: 'g' :: 'e' :: 's' :: '/' :: id.data, none) :=
    splitAtFirst_none _ _ fun c hc => (hmem c hc).1
  have e2 : splitAtFirst qmarkChar ('/' :: 'i' :: 'm' :: 'a' :: 'g' :: 'e' ::
      's' :: '/' :: id.data) =
      ('/' :: 'i' :: 'm' :: 'a' :: 'g' :: 'e' :: 's' :: '/' :: id.data, none) :=
    splitAtFirst_none _ _ fun c hc => (hmem c hc).2.1
  have e3 : (('/' :: 'i' :: 'm' :: 'a' :: 'g' :: 'e' :: 's' :: '/' ::
      id.data).map fun c => if c = bslashChar then '/' else c) =
      '/' :: 'i' :: 'm' :: 'a' :: 'g' :: 'e' :: 's' :: '/' :: id.data :=
    map_backslash_id _ fun c hc => (hmem c hc).2.2
  have hd : ("/images/" : String).data =
      '/' :: 'i' :: 'm' :: 'a' :: 'g' :: 'e' :: 's' :: '/' :: [] := rfl
  have e4 : splitSegments ('i' :: 'm' :: 'a' :: 'g' :: 'e' :: 's' :: '/' ::
      id.data) = ['i', 'm', 'a', 'g', 'e', 's'] :: splitSegments id.data := by
    have h4 := splitSegments_append ['i', 'm', 'a', 'g', 'e', 's'] id.data
      (by decide)
    simpa [List.cons_append] using h4
  have e5 : splitSegments id.data = [id.data] :=
    splitSegments_no_slash _ fun c hc => (hspec c hc).2.1
  have e6 : processSegments [] [['i', 'm', 'a', 'g', 'e', 's'], id.data] =
      processSegments ["images"] [id.data] :=
    processSegments_cons_safe _ _ _ (by decide) (by decide) (by decide)
  have e7 : processSegments ["images"] [id.data] = ["images", ⟨id.data⟩] :=
    processSegments_cons_safe _ _ _ (fun c hc => (hspec c hc).1) hdot1 hdot2
  simp only [parseUrlInput, data_append, hd, List.cons_append, List.nil_append,
    e1, e2, e3, e4, e5, e6, e7]
  rfl

/-- C2 amended, serialization step for the image URL. -/
theorem serializeUrl_image (id : String) :
    serializeUrl ⟨["images", id], none, none⟩ = API_URL ++ "/images/" ++ id := by
  apply String.ext
  simp only [serializeUrl, String.join, List.map_cons, List.map_nil,
    List.foldl, data_append]
  simp [API_URL]

/-- C2 amended, serialization step for the thumbnail URL. -/
theorem serializeUrl_thumbnail (id : String) :
    serializeUrl ⟨["images", id, "thumbnail"], none, none⟩ =
      API_URL ++ "/images/" ++ id ++ "/thumbnail" := by
  apply String.ext
  simp only [serializeUrl, String.join, List.map_cons, List.map_nil,
    List.foldl, data_append]
  simp [API_URL]

/-- C2 amended, part of the proof: parsing `/images/` ++ id ++
`/thumbnail` for a safe, non-dot id yields exactly the three path
segments and no query or fragment. -/
theorem parseUrlInput_thumbnail (id : String)
    (hchars : ∀ c ∈ id.data, urlSafeSegChar c = true)
    (hdot1 : isSingleDotSeg id.data = false)
    (hdot2 : isDoubleDotSeg id.data = false) :
    parseUrlInput ("/images/" ++ id ++ "/thumbnail") =
      { pathSegments := ["images", id, "thumbnail"], query := none,
        fragment := none } := by
  have hspec := fun c hc => urlSafeSegChar_spec c (hchars c hc)
  have hmem : ∀ c ∈ ('/' :: 'i' :: 'm' :: 'a' :: 'g' :: 'e' :: 's' :: '/' ::
      (id.data ++ '/' :: 't' :: 'h' :: 'u' :: 'm' :: 'b' :: 'n' :: 'a' ::
        'i' :: 'l' :: [])),
      c ≠ hashChar ∧ c ≠ qmarkChar ∧ c ≠ bslashChar := by
    intro c hc
    simp only [List.mem_cons, List.mem_append] at hc
    rcases hc with rfl | rfl | rfl | rfl | rfl | rfl | rfl | rfl | h | h
    any_goals decide
    · obtain ⟨_, _, h3, h4, h5⟩ := hspec c h
      exact ⟨h4, h5, h3⟩
    · rcases h with rfl | rfl | rfl | rfl | rfl | rfl | rfl | rfl | rfl | rfl | h
      any_goals decide
      exact absurd h (List.not_mem_nil c)
  have e1 : splitAtFirst hashChar ('/' :: 'i' :: 'm' :: 'a' :: 'g' :: 'e' ::
      's' :: '/' :: (id.data ++ '/' :: 't' :: 'h' :: 'u' :: 'm' :: 'b' ::
        'n' :: 'a' :: 'i' :: 'l' :: [])) =
      ('/' :: 'i' :: 'm' :: 'a' :: 'g' :: 'e' :: 's' :: '/' ::
        (id.data ++ '/' :: 't' :: 'h' :: 'u' :: 'm' :: 'b' :: 'n' :: 'a' ::
          'i' :: 'l' :: []), none) :=
    splitAtFirst_none _ _ fun c hc => (hmem c hc).1
  have e2 : splitAtFirst qmarkChar ('/' :: 'i' :: 'm' :: 'a' :: 'g' :: 'e' ::
      's' :: '/' :: (id.data ++ '/' :: 't' :: 'h' :: 'u' :: 'm' :: 'b' ::
        'n' :: 'a' :: 'i' :: 'l' :: [])) =
      ('/' :: 'i' :: 'm' :: 'a' :: 'g' :: 'e' :: 's' :: '/' ::
        (id.data ++ '/' :: 't' :: 'h' :: 'u' :: 'm' :: 'b' :: 'n' :: 'a' ::
          'i' :: 'l' :: []), none) :=
    splitAtFirst_none _ _ fun c hc => (hmem c hc).2.1
  have e3 : (('/' :: 'i' :: 'm' :: 'a' :: 'g' :: 'e' :: 's' :: '/' ::
      (id.data ++ '/' :: 't' :: 'h' :: 'u' :: 'm' :: 'b' :: 'n' :: 'a' ::
        'i' :: 'l' :: [])).map fun c => if c = bslashChar then '/' else c) =
      '/' :: 'i' :: 'm' :: 'a' :: 'g' :: 'e' :: 's' :: '/' ::
        (id.data ++ '/' :: 't' :: 'h' :: 'u' :: 'm' :: 'b' :: 'n' :: 'a' ::
          'i' :: 'l' :: []) :=
    map_backslash_id _ fun c hc => (hmem c hc).2.2
  have hd : ("/images/" : String).data =
      '/' :: 'i' :: 'm' :: 'a' :: 'g' :: 'e' :: 's' :: '/' :: [] := rfl
  have hdT : ("/thumbnail" : String).data =
      '/' :: 't' :: 'h' :: 'u' :: 'm' :: 'b' :: 'n' :: 'a' :: 'i' :: 'l' ::
        [] := rfl
  have e4 : splitSegments ('i' :: 'm' :: 'a' :: 'g' :: 'e' :: 's' :: '/' ::
      (id.data ++ '/' :: 't' :: 'h' :: 'u' :: 'm' :: 'b' :: 'n' :: 'a' ::
        'i' :: 'l' :: [])) =
      ['i', 'm', 'a', 'g', 'e', 's'] ::
        splitSegments (id.data ++ '/' :: 't' :: 'h' :: 'u' :: 'm' :: 'b' ::
          'n' :: 'a' :: 'i' :: 'l' :: []) := by
    have h4 := splitSegments_append ['i', 'm', 'a', 'g', 'e', 's']
      (id.data ++ '/' :: 't' :: 'h' :: 'u' :: 'm' :: 'b' :: 'n' :: 'a' ::
        'i' :: 'l' :: []) (by decide)
    simpa [List.cons_append] using h4
  have e5 : splitSegments (id.data ++ '/' :: 't' :: 'h' :: 'u' :: 'm' ::
      'b' :: 'n' :: 'a' :: 'i' :: 'l' :: []) =
      id.data :: splitSegments ('t' :: 'h' :: 'u' :: 'm' :: 'b' :: 'n' ::
        'a' :: 'i' :: 'l' :: []) :=
    splitSegments_append _ _ fun c hc => (hspec c hc).2.1
  have e6 : splitSegments ('t' :: 'h' :: 'u' :: 'm' :: 'b' :: 'n' :: 'a' ::
      'i' :: 'l' :: []) = [['t', 'h', 'u', 'm', 'b', 'n', 'a', 'i', 'l']] :=
    splitSegments_no_slash _ (by decide)
  have e7 : processSegments []
      [['i', 'm', 'a', 'g', 'e', 's'], id.data,
        ['t', 'h', 'u', 'm', 'b', 'n', 'a', 'i', 'l']] =
      processSegments ["images"]
        [id.data, ['t', 'h', 'u', 'm', 'b', 'n', 'a', 'i', 'l']] :=
    processSegments_cons_safe _ _ _ (by decide) (by decide) (by decide)
  have e8 : processSegments ["images"]
      [id.data, ['t', 'h', 'u', 'm', 'b', 'n', 'a', 'i', 'l']] =
      processSegments ["images", ⟨id.data⟩]
        [['t', 'h', 'u', 'm', 'b', 'n', 'a', 'i', 'l']] :=
    processSegments_cons_safe _ _ _ (fun c hc => (hspec c hc).1) hdot1 hdot2
  have e9 : processSegments ["images", ⟨id.data⟩]
      [['t', 'h', 'u', 'm', 'b', 'n', 'a', 'i', 'l']] =
      ["images", ⟨id.data⟩, "thumbnail"] := by
    have h9 := processSegments_cons_safe ["images", ⟨id.data⟩]
      ['t', 'h', 'u', 'm', 'b', 'n', 'a', 'i', 'l'] [] (by decide) (by decide)
      (by decide)
    simpa using h9
  simp only [parseUrlInput, data_append, hd, hdT, List.cons_append,
    List.nil_append, e1, e2, e3, e4, e5, e6, e7, e8, e9]
  rfl

/-- C2 amended: `getImageUrl`/`getThumbnailUrl` are pure total string
builders that never reject an id; for every id made of URL-safe path
characters (printable ASCII outside the path percent-encode set and not
`/`, `\`, `?` or `#`) that does not spell a dot segment, they return
exactly the configured base URL joined with `/images/{id}` resp.
`/images/{id}/thumbnail`.  (Ids containing URL-unsafe characters are
percent-encoded or reinterpreted by the URL constructor instead — see
the counterexample.) -/
theorem image_urls_join_safe_ids (id : String)
    (hsafe : id.data.all urlSafeSegChar = true)
    (hdot1 : isSingleDotSeg id.data = false)
    (hdot2 : isDoubleDotSeg id.data = false) :
    getImageUrl id = API_URL ++ "/images/" ++ id ∧
    getThumbnailUrl id = API_URL ++ "/images/" ++ id ++ "/thumbnail" := by
  have hchars : ∀ c ∈ id.data, urlSafeSegChar c = true := by
    simpa [List.all_eq_true] using hsafe
  constructor
  · rw [getImageUrl, parseUrlInput_image id hchars hdot1 hdot2,
      serializeUrl_image]
  · rw [getThumbnailUrl, parseUrlInput_thumbnail id hchars hdot1 hdot2,
      serializeUrl_thumbnail]

/-- Witness for C2 (amended) at the id "photo1.png". -/
theorem image_urls_join_safe_ids_witness :
    ("photo1.png" : String).data.all urlSafeSegChar = true ∧
    getImageUrl "photo1.png" = API_URL ++ "/images/" ++ "photo1.png" ∧
    getThumbnailUrl "photo1.png" =
      API_URL ++ "/images/" ++ "photo1.png" ++ "/thumbnail" :=
  ⟨by decide,
   (image_urls_join_safe_ids "photo1.png" (by decide) (by decide)
      (by decide)).1,
   (image_urls_join_safe_ids "photo1.png" (by decide) (by decide)
      (by decide)).2⟩

/-! ## Concrete evaluations of the embedding

Spot checks of the URL model against the browser's `URL` constructor
and of `jsNumber` against `Number`. -/

example : getImageUrl "abc" = "http://localhost:8000/images/abc" := by decide
example : getImageUrl "a b" = "http://localhost:8000/images/a%20b" := by decide
example : getThumbnailUrl "x.png" =
    "http://localhost:8000/images/x.png/thumbnail" := by decide
example : getImageUrl "../x" = "http://localhost:8000/x" := by decide
example : getImageUrl "a?b" = "http://localhost:8000/images/a?b" := by decide
example : getImageUrl "" = "http://localhost:8000/images/" := by decide
example : jsNumber "3" = .int 3 := by decide
example : jsNumber "" = .int 0 := by decide
example : jsNumber " 42 " = .int 42 := by decide
example : jsNumber "-7" = .int (-7) := by decide
example : jsNumber "abc" = .nan := by decide

end TravelShare
